import Mathlib

/-!
Shallow embedding of the `dailytranslator` repository (Python) in Lean 4,
with theorems checking the natural-language specification against the code.

Modelling conventions:
* Python `dict` (which preserves insertion order) is modelled as an
  association list `List (κ × β)`; assignment `d[k] = v` is `pyInsert`
  (replace in place if the key is present, else append), `d.update(other)`
  is `pyUpdate`, lookup is `pyGet?`.
* Python `int` is `Int`; list indices and sentence positions are `Int`.
* Python exceptions are `Except String _`; where a claim is about the state
  left behind by a raise, the error branch carries the state as it was at
  the moment of the raise (all mutations executed before the raise are
  applied, none after).
* `datetime` values are opaque `Nat` timestamps.
* File contents and the NLTK sentence tokenizer are parameters
  (`String → Option String` and `String → List String`): they are external
  collaborators of the code under `src/`.
-/

namespace DT

/-- Python dict lookup: first (unique, by construction) binding of the key. -/
def pyGet? {κ β : Type} [DecidableEq κ] (k : κ) : List (κ × β) → Option β
  | [] => none
  | (k', v) :: rest => if k' = k then some v else pyGet? k rest

/-- Python dict assignment `d[k] = v`: replace the binding in place if the
key is present (keeping its position), else append the new binding. -/
def pyInsert {κ β : Type} [DecidableEq κ] (k : κ) (v : β) : List (κ × β) → List (κ × β)
  | [] => [(k, v)]
  | (k', v') :: rest => if k' = k then (k, v) :: rest else (k', v') :: pyInsert k v rest

/-- Python `d.update(other)`: assign every binding of `other` into `d`,
in `other`'s iteration order. -/
def pyUpdate {κ β : Type} [DecidableEq κ] (d other : List (κ × β)) : List (κ × β) :=
  other.foldl (fun acc kv => pyInsert kv.1 kv.2 acc) d

/-- Python `k in d`. -/
def pyContains {κ β : Type} [DecidableEq κ] (k : κ) (d : List (κ × β)) : Bool :=
  (pyGet? k d).isSome

/-- Python list slicing index normalization: for `l[a:b]`, a negative bound
counts from the end and both bounds are clamped into `[0, len]`. -/
def pySliceIdx (n : Nat) (i : Int) : Nat :=
  if i < 0 then (max 0 ((n : Int) + i)).toNat else (min i (n : Int)).toNat

/-- Python `l[a:b]`. -/
def pySlice {α : Type} (l : List α) (a b : Int) : List α :=
  (l.take (pySliceIdx l.length b)).drop (pySliceIdx l.length a)

/-- Python list indexing validity: `l[i]` succeeds iff `-len ≤ i < len`
(negative indices count from the end). -/
def pyIndexValid (n : Nat) (i : Int) : Bool :=
  decide (-(n : Int) ≤ i) && decide (i < (n : Int))

/-- Whitespace for Python `str.strip()` / `\s` (ASCII part: space, tab,
newline, carriage return, vertical tab, form feed). -/
def pyIsSpace (c : Char) : Bool :=
  c = ' ' || c = '\t' || c = '\n' || c = '\r' || c.toNat = 11 || c.toNat = 12

/-- Python `str.strip()` on a character list. -/
def pyStrip (s : List Char) : List Char :=
  ((s.dropWhile pyIsSpace).reverse.dropWhile pyIsSpace).reverse

/-- Python `str.strip()` on a string. -/
def pyStripStr (s : String) : String :=
  String.mk (pyStrip s.data)

/-- Python `s.endswith(c)` for a single-character suffix: the last character
equals `c`. -/
def endsWithChar (s : String) (c : Char) : Bool :=
  match s.data.getLast? with
  | some c' => c' = c
  | none => false

/-- models.py: delivery method enum. -/
inductive DeliveryMethod : Type
  | EMAIL
  | SMS
deriving DecidableEq, Repr

/-- models.py: `User` dataclass. -/
structure User : Type where
  id : String
  name : String
  email : Option String
  phone : Option String
  preferred_method : DeliveryMethod
deriving DecidableEq, Repr

/-- Python falsiness of an `Optional[str]` field: `None` or the empty string. -/
def optStrFalsy : Option String → Bool
  | none => true
  | some s => s = ""

/-- models.py: `User.__post_init__` validation — constructing a `User` raises
`ValueError` when the preferred method lacks the matching contact field. -/
def mkUser (id name : String) (email phone : Option String)
    (preferred_method : DeliveryMethod) : Except String User :=
  if preferred_method = DeliveryMethod.EMAIL && optStrFalsy email then
    .error "ValueError: email required for email delivery"
  else if preferred_method = DeliveryMethod.SMS && optStrFalsy phone then
    .error "ValueError: phone required for sms delivery"
  else
    .ok { id := id, name := name, email := email, phone := phone,
          preferred_method := preferred_method }

/-- models.py: `TranslationProgress` dataclass.  `total_sentences` models the
dynamic `_total_sentences` attribute set by `set_total_sentences`. -/
structure TranslationProgress : Type where
  user_id : String
  text_id : String
  current_position : Int
  last_sent_date : Option Nat
  translations : List (Int × String)
  total_sentences : Option Int
deriving DecidableEq, Repr

/-- models.py: `TextSource` dataclass. -/
structure TextSource : Type where
  id : String
  title : String
  file_path : String
  language : String
  target_language : String
  author : Option String
  sentences_per_day : Int
  sentences : List String
deriving DecidableEq, Repr

/-- models.py: `TextSource.total_days` —
`(len(self.sentences) + self.sentences_per_day - 1) // self.sentences_per_day`.
Python `//` on ints is floor division, `Int.fdiv`. -/
def TextSource.total_days (t : TextSource) : Int :=
  Int.fdiv ((t.sentences.length : Int) + t.sentences_per_day - 1) t.sentences_per_day

/-- user_manager.py: `UserManager` state — `users` and `progress` are
insertion-ordered dicts keyed by user id. -/
structure UserManager : Type where
  users : List (String × User)
  progress : List (String × List TranslationProgress)
deriving DecidableEq, Repr

/-- user_manager.py: the freshly constructed `UserManager()`. -/
def UserManager.init : UserManager := { users := [], progress := [] }

/-- user_manager.py: `register_user`. -/
def register_user (um : UserManager) (id name : String) (email phone : Option String)
    (preferred_method : DeliveryMethod) : Except String (UserManager × User) :=
  if pyContains id um.users then
    .error "ValueError: user id already exists"
  else
    match mkUser id name email phone preferred_method with
    | .error e => .error e
    | .ok u =>
        .ok ({ users := pyInsert id u um.users,
               progress := pyInsert id [] um.progress }, u)

/-- user_manager.py: `get_user`. -/
def get_user (um : UserManager) (user_id : String) : Except String User :=
  match pyGet? user_id um.users with
  | none => .error "KeyError: user not found"
  | some u => .ok u

/-- user_manager.py: `assign_text`. -/
def assign_text (um : UserManager) (user_id text_id : String) (total_sentences : Int) :
    Except String (UserManager × TranslationProgress) :=
  match get_user um user_id with
  | .error e => .error e
  | .ok _ =>
      match pyGet? user_id um.progress with
      | none => .error "KeyError: no progress list for user"
      | some pl =>
          if pl.any (fun p => p.text_id = text_id) then
            .error "ValueError: user is already translating this text"
          else
            let p : TranslationProgress :=
              { user_id := user_id, text_id := text_id, current_position := 0,
                last_sent_date := none, translations := [],
                total_sentences := some total_sentences }
            .ok ({ um with progress := pyInsert user_id (pl ++ [p]) um.progress }, p)

/-- user_manager.py: `get_progress` — first record in the user's list whose
`text_id` matches. -/
def get_progress (um : UserManager) (user_id text_id : String) :
    Except String TranslationProgress :=
  match get_user um user_id with
  | .error e => .error e
  | .ok _ =>
      match pyGet? user_id um.progress with
      | none => .error "KeyError: no progress list for user"
      | some pl =>
          match pl.find? (fun p => p.text_id = text_id) with
          | some p => .ok p
          | none => .error "ValueError: user is not translating this text"

/-- Update the first record in the list whose `text_id` matches (the one
`get_progress` returns and Python mutates in place). -/
def updFirst (text_id : String) (f : TranslationProgress → TranslationProgress) :
    List TranslationProgress → List TranslationProgress
  | [] => []
  | p :: rest =>
      if p.text_id = text_id then f p :: rest else p :: updFirst text_id f rest

/-- Map the value stored at one key of an insertion-ordered dict. -/
def pyMapAt {κ β : Type} [DecidableEq κ] (k : κ) (f : β → β) :
    List (κ × β) → List (κ × β)
  | [] => []
  | (k', v) :: rest =>
      if k' = k then (k', f v) :: rest else (k', v) :: pyMapAt k f rest

/-- user_manager.py: `update_progress` — sets `current_position` and
`last_sent_date` on the record `get_progress` resolves, unconditionally. -/
def update_progress (um : UserManager) (user_id text_id : String)
    (position : Int) (sent_date : Nat) : Except String UserManager :=
  match get_progress um user_id text_id with
  | .error e => .error e
  | .ok _ =>
      .ok { um with
            progress :=
              pyMapAt user_id
                (updFirst text_id
                  (fun p => { p with current_position := position,
                                     last_sent_date := some sent_date }))
                um.progress }

/-- user_manager.py: `save_translation` — upserts one translated sentence
into the record `get_progress` resolves. -/
def save_translation (um : UserManager) (user_id text_id : String)
    (sentence_index : Int) (translation : String) : Except String UserManager :=
  match get_progress um user_id text_id with
  | .error e => .error e
  | .ok _ =>
      .ok { um with
            progress :=
              pyMapAt user_id
                (updFirst text_id
                  (fun p => { p with translations :=
                                pyInsert sentence_index translation p.translations }))
                um.progress }

/-- user_manager.py: `get_all_translations` — iterates users in insertion
order, and for each matching record merges its translations with
`dict.update` (later bindings overwrite earlier ones). -/
def get_all_translations (um : UserManager) (text_id : String) : List (Int × String) :=
  um.progress.foldl
    (fun acc kv =>
      kv.2.foldl
        (fun acc2 p => if p.text_id = text_id then pyUpdate acc2 p.translations else acc2)
        acc)
    []

/-- text_manager.py: `TextManager` state. -/
structure TextManager : Type where
  data_dir : String
  texts : List (String × TextSource)
deriving DecidableEq, Repr

/-- Collapse every whitespace run to a single space
(`re.sub(r'\s+', ' ', text)`). -/
def squeezeWs : List Char → List Char
  | [] => []
  | c :: cs =>
      let rest := squeezeWs cs
      if pyIsSpace c then
        match rest with
        | ' ' :: _ => rest
        | _ => ' ' :: rest
      else c :: rest

/-- text_manager.py: `_parse_text` given the file contents — normalize
whitespace, run the (external) sentence tokenizer, strip each sentence and
drop the ones that are empty after stripping. -/
def parse_text (tok : String → List String) (contents : String) : List String :=
  ((tok (String.mk (squeezeWs contents.data))).map pyStripStr).filter (fun s => s ≠ "")

/-- os.path.join of the data directory and a relative file path. -/
def pyPathJoin (dir p : String) : String := dir ++ "/" ++ p

/-- text_manager.py: `register_text`.  `fs` maps a path to its contents when
the file exists.  The error branch carries the `TextManager` state as it was
at the moment of the raise: both checks precede every mutation in the
source, so it is always the input state. -/
def register_text (fs : String → Option String) (tok : String → List String)
    (tm : TextManager) (id title file_path language target_language : String)
    (author : Option String) (sentences_per_day : Int) :
    Except (String × TextManager) (TextManager × TextSource) :=
  if pyContains id tm.texts then
    .error ("ValueError: text id already exists", tm)
  else
    match fs (pyPathJoin tm.data_dir file_path) with
    | none => .error ("FileNotFoundError: text file not found", tm)
    | some contents =>
        let ts : TextSource :=
          { id := id, title := title, file_path := file_path, language := language,
            target_language := target_language, author := author,
            sentences_per_day := sentences_per_day,
            sentences := parse_text tok contents }
        .ok ({ tm with texts := pyInsert id ts tm.texts }, ts)

/-- text_manager.py: `get_text`. -/
def get_text (tm : TextManager) (text_id : String) : Except String TextSource :=
  match pyGet? text_id tm.texts with
  | none => .error "KeyError: text not found"
  | some t => .ok t

/-- text_manager.py: `get_daily_portion` —
`sentences[position : min(position + sentences_per_day, len(sentences))]`. -/
def get_daily_portion (tm : TextManager) (text_id : String) (position : Int) :
    Except String (List String) :=
  match get_text tm text_id with
  | .error e => .error e
  | .ok ts =>
      let start_idx := position
      let end_idx := min (start_idx + ts.sentences_per_day) (ts.sentences.length : Int)
      .ok (pySlice ts.sentences start_idx end_idx)

/-- text_manager.py: `save_translated_sentence` — only echoes the sentence,
but the echo indexes `text.sentences[sentence_index]`, which raises
`IndexError` when the index is invalid for the Python list. -/
def save_translated_sentence (tm : TextManager) (text_id : String)
    (sentence_index : Int) : Except String Unit :=
  match get_text tm text_id with
  | .error e => .error e
  | .ok ts =>
      if pyIndexValid ts.sentences.length sentence_index then .ok ()
      else .error "IndexError: sentence index out of range"

/-- Maximal run of ASCII digits at the head of the list, with the rest.
A greedy regex `\d+` immediately followed by a non-digit literal can only
match this maximal run (backtracking to a shorter run leaves a digit next,
which the literal cannot match). -/
def digitRun : List Char → List Char × List Char
  | [] => ([], [])
  | c :: cs =>
      if c.isDigit then
        let (d, r) := digitRun cs
        (c :: d, r)
      else ([], c :: cs)

/-- Match `\[(\d+)\]` at the head of the list: returns the digit group and
the rest after the closing bracket. -/
def matchBracketMarker : List Char → Option (List Char × List Char)
  | '[' :: cs =>
      match digitRun cs with
      | ([], _) => none
      | (ds, ']' :: rest) => some (ds, rest)
      | (_, _) => none
  | _ => none

/-- Match `(\d+)\.` at the head of the list: returns the digit group and the
rest after the dot. -/
def matchNumMarker (s : List Char) : Option (List Char × List Char) :=
  match digitRun s with
  | ([], _) => none
  | (ds, '.' :: rest) => some (ds, rest)
  | (_, _) => none

/-- Non-greedy `(.*?)` with DOTALL up to the lookahead `(?=\[\d+\]|\Z)`:
the shortest prefix whose remainder starts a bracket marker or is empty. -/
def takeUntilBracket : List Char → List Char × List Char
  | [] => ([], [])
  | c :: cs =>
      if (matchBracketMarker (c :: cs)).isSome then ([], c :: cs)
      else
        let (t, r) := takeUntilBracket cs
        (c :: t, r)

/-- Non-greedy `(.*?)` with DOTALL up to the lookahead `(?=\d+\.|\Z)`. -/
def takeUntilNum : List Char → List Char × List Char
  | [] => ([], [])
  | c :: cs =>
      if (matchNumMarker (c :: cs)).isSome then ([], c :: cs)
      else
        let (t, r) := takeUntilNum cs
        (c :: t, r)

/-- `re.findall(r'\[(\d+)\](.*?)(?=\[\d+\]|\Z)', body, re.DOTALL)`:
scan left to right, advancing one character on a failed match attempt and
resuming at the match end (the lookahead is not consumed) on success.
`fuel` bounds the scan; every step consumes at least one character, so
`length + 1` is always enough. -/
def scanBracket : Nat → List Char → List (List Char × List Char)
  | 0, _ => []
  | _ + 1, [] => []
  | fuel + 1, c :: cs =>
      match matchBracketMarker (c :: cs) with
      | some (ds, rest) =>
          let (content, rest') := takeUntilBracket rest
          (ds, content) :: scanBracket fuel rest'
      | none => scanBracket fuel cs

/-- `re.findall(r'(\d+)\.(.*?)(?=\d+\.|\Z)', body, re.DOTALL)`. -/
def scanNum : Nat → List Char → List (List Char × List Char)
  | 0, _ => []
  | _ + 1, [] => []
  | fuel + 1, c :: cs =>
      match matchNumMarker (c :: cs) with
      | some (ds, rest) =>
          let (content, rest') := takeUntilNum rest
          (ds, content) :: scanNum fuel rest'
      | none => scanNum fuel cs

/-- Python `int(s)` on the match of a `\d+` group: always a non-empty digit
string, so conversion never raises; `none` models the (unreachable)
`ValueError` branch of the source's `try`/`except`. -/
def pyIntOfDigits? (s : List Char) : Option Int :=
  match s with
  | [] => none
  | _ =>
      if s.all Char.isDigit then
        some ((s.foldl (fun a c => a * 10 + (c.toNat - 48)) (0 : Nat) : Nat) : Int)
      else none

/-- The primary bracket-pattern matches of a reply body. -/
def bracketMatches (body : String) : List (List Char × List Char) :=
  scanBracket (body.data.length + 1) body.data

/-- The fallback numbered-list-pattern matches of a reply body. -/
def numMatches (body : String) : List (List Char × List Char) :=
  scanNum (body.data.length + 1) body.data

/-- Build the translations dict from the matches: marker number `n` becomes
key `n - 1`, the matched text is stripped; a non-integer marker is skipped
(unreachable for `\d+` groups). -/
def matchesToDict (ms : List (List Char × List Char)) : List (Int × String) :=
  ms.foldl
    (fun d kv =>
      match pyIntOfDigits? kv.1 with
      | some n => pyInsert (n - 1) (String.mk (pyStrip kv.2)) d
      | none => d)
    []

/-- messaging.py: `MessagingService.process_reply` — primary bracket pattern,
falling back to the numbered-list pattern only when the primary yields zero
matches; `sender` and `subject` are parameters of the source function but
unused by it. -/
def process_reply (sender subject : String) (body : String) : List (Int × String) :=
  let ms := bracketMatches body
  let ms := if ms = [] then numMatches body else ms
  matchesToDict ms

/-- app.py, `process_translation_reply` step 1: resolve the sender to the
first registered user whose email or phone equals the sender contact. -/
def resolve_sender (um : UserManager) (sender : String) : Option String :=
  um.users.findSome?
    (fun kv => if kv.2.email = some sender ∨ kv.2.phone = some sender then some kv.1 else none)

/-- app.py, `process_translation_reply` step 2a: resolve the text id from a
subject of the form `Daily Translation: {title}` by exact title match. -/
def resolve_text_from_subject (tm : TextManager) (subject : String) : Option String :=
  if List.isPrefixOf "Daily Translation:".data subject.data then
    let text_title :=
      pyStripStr (String.mk (subject.data.drop "Daily Translation:".data.length))
    tm.texts.findSome? (fun kv => if kv.2.title = text_title then some kv.1 else none)
  else none

/-- app.py, `process_translation_reply` step 5: the save loop. For each
parsed `(relative index, translation)` in dict order, `save_translation`
writes into the user's progress record and `save_translated_sentence`
echoes the original sentence — raising `IndexError` on an invalid index,
which aborts the loop with the mutations made so far kept. -/
def routeSaveLoop (tm : TextManager) (user_id text_id : String) (base : Int) :
    UserManager → List (Int × String) → Except (String × UserManager) UserManager
  | um, [] => .ok um
  | um, (r, t) :: rest =>
      match save_translation um user_id text_id (base + r) t with
      | .error e => .error (e, um)
      | .ok um1 =>
          match save_translated_sentence tm text_id (base + r) with
          | .error e => .error (e, um1)
          | .ok _ => routeSaveLoop tm user_id text_id base um1 rest

/-- app.py: `TranslationServiceApp.process_translation_reply`.  Early
returns (unknown sender, no resolvable text, empty parse) are normal
returns leaving the state unchanged; exceptions carry the state at the
moment of the raise. -/
def process_translation_reply (tm : TextManager) (um : UserManager)
    (sender subject body : String) : Except (String × UserManager) UserManager :=
  match resolve_sender um sender with
  | none => .ok um
  | some user_id =>
      let subjectTid := resolve_text_from_subject tm subject
      let tidResult : Except (String × UserManager) (Option String) :=
        match subjectTid with
        | some tid => .ok (some tid)
        | none =>
            match pyGet? user_id um.progress with
            | none => .error ("KeyError: no progress list for user", um)
            | some pl =>
                match pl with
                | [] => .ok none
                | p :: _ => .ok (some p.text_id)
      match tidResult with
      | .error e => .error e
      | .ok none => .ok um
      | .ok (some text_id) =>
          let translations := process_reply sender subject body
          if translations = [] then .ok um
          else
            match get_progress um user_id text_id with
            | .error e => .error (e, um)
            | .ok prog =>
                match get_text tm text_id with
                | .error e => .error (e, um)
                | .ok text =>
                    let start_position := max 0 (prog.current_position - text.sentences_per_day)
                    routeSaveLoop tm user_id text_id start_position um translations

/-- translation_assembler.py: `_assemble_txt` — the contents written to the
output file.  The space-or-newline separator is only written in the
translated branch; an untranslated placeholder is written with no
separator after it. -/
def _assemble_txt (sentences : List String) (translations : List (Int × String)) : String :=
  (sentences.enum.foldl
    (fun acc iv =>
      match pyGet? ((iv.1 : Nat) : Int) translations with
      | some tr =>
          acc ++ tr ++
            (if endsWithChar iv.2 '.' || endsWithChar iv.2 '!' || endsWithChar iv.2 '?' then
              "\n"
             else " ")
      | none => acc ++ "[UNTRANSLATED: " ++ iv.2 ++ "]")
    "")

/-- Lookup of one translated sentence in the progress record that
`get_progress` resolves for a (user, text) pair. -/
def lookupTranslation (um : UserManager) (user_id text_id : String) (k : Int) :
    Option String :=
  match get_progress um user_id text_id with
  | .ok p => pyGet? k p.translations
  | .error _ => none

/-- The per-sentence piece of the plain-format output as the code emits it:
translation plus separator when present, bare placeholder otherwise. -/
def txtPiece (translations : List (Int × String)) (iv : Nat × String) : String :=
  match pyGet? ((iv.1 : Nat) : Int) translations with
  | some tr =>
      tr ++
        (if endsWithChar iv.2 '.' || endsWithChar iv.2 '!' || endsWithChar iv.2 '?' then "\n"
         else " ")
  | none => "[UNTRANSLATED: " ++ iv.2 ++ "]"

/-- Concatenation of the per-sentence pieces of the plain-format output. -/
def joinPieces (translations : List (Int × String)) : List (Nat × String) → String
  | [] => ""
  | iv :: rest => txtPiece translations iv ++ joinPieces translations rest

/-- Modelled from the spec claim's words (for comparison with
`_assemble_txt`): emit translation or placeholder for every sentence and
insert the separator after EVERY sentence, chosen by the original's final
punctuation. -/
def _assemble_txt_claimed (sentences : List String) (translations : List (Int × String)) :
    String :=
  (sentences.enum.foldl
    (fun acc iv =>
      acc ++
        (match pyGet? ((iv.1 : Nat) : Int) translations with
         | some tr => tr
         | none => "[UNTRANSLATED: " ++ iv.2 ++ "]") ++
        (if endsWithChar iv.2 '.' || endsWithChar iv.2 '!' || endsWithChar iv.2 '?' then "\n"
         else " "))
    "")

/-- Modelled from the spec claim's words (for comparison with
`get_daily_portion`): the sentence slice
`[startPosition, min(startPosition + sentencesPerDay, len(sentences)))`
as a half-open interval of absolute indices. -/
def dailyPortionSpec (ts : TextSource) (pos : Int) : List String :=
  (ts.sentences.drop pos.toNat).take
    ((min (pos + ts.sentences_per_day) (ts.sentences.length : Int)) - pos).toNat

/-- The progress records for a text, in the order `get_all_translations`
iterates them: users in insertion (registration) order, each user's records
in assignment order. -/
def recordsFor (um : UserManager) (text_id : String) : List TranslationProgress :=
  (um.progress.map (fun kv => kv.2.filter (fun p => p.text_id = text_id))).flatten

/-- Merge scenario driven through the API: two users registered in order,
both assigned the same text, both translating index 0. -/
def c5merged : Option (List (Int × String)) := do
  let (um, _) ← (register_user UserManager.init "alice" "Alice" (some "alice.mail") none
      DeliveryMethod.EMAIL).toOption
  let (um, _) ← (register_user um "bob" "Bob" (some "bob.mail") none
      DeliveryMethod.EMAIL).toOption
  let (um, _) ← (assign_text um "alice" "t" 3).toOption
  let (um, _) ← (assign_text um "bob" "t" 3).toOption
  let um ← (save_translation um "alice" "t" 0 "from-alice").toOption
  let um ← (save_translation um "bob" "t" 0 "from-bob").toOption
  some (get_all_translations um "t")

/-- Sample text: five sentences, two per day. -/
def sampleText : TextSource :=
  { id := "t", title := "T", file_path := "f.txt", language := "en",
    target_language := "es", author := none, sentences_per_day := 2,
    sentences := ["a", "b", "c", "d", "e"] }

/-- Sample text with a negative `sentences_per_day` (nothing in the code
rejects one at registration). -/
def negSpdText : TextSource :=
  { id := "t", title := "T", file_path := "f.txt", language := "en",
    target_language := "es", author := none, sentences_per_day := -1,
    sentences := ["a", "b", "c"] }

/-- Catalog holding `negSpdText`. -/
def negSpdTm : TextManager := { data_dir := "d", texts := [("t", negSpdText)] }

/-- Catalog holding `sampleText`. -/
def sampleTm : TextManager := { data_dir := "d", texts := [("t", sampleText)] }

/-- A registered email user. -/
def uUser : User :=
  { id := "u", name := "U", email := some "u.mail", phone := none,
    preferred_method := DeliveryMethod.EMAIL }

/-- State for the C1 counterexample: user `u` is translating text `t` and
the cursor is at 5. -/
def c1State : UserManager :=
  { users := [("u", uUser)],
    progress := [("u", [{ user_id := "u", text_id := "t", current_position := 5,
                          last_sent_date := none, translations := [],
                          total_sentences := some 9 }])] }

/-- The state after the C1 counterexample's call: the cursor moved back. -/
def c1After : UserManager :=
  { users := [("u", uUser)],
    progress := [("u", [{ user_id := "u", text_id := "t", current_position := 2,
                          last_sent_date := some 7, translations := [],
                          total_sentences := some 9 }])] }

/-- A registered user with no assignments yet. -/
def umW8 : UserManager := { users := [("u", uUser)], progress := [("u", [])] }

/-- One-sentence text for the C3 counterexample. -/
def oneSentenceText : TextSource :=
  { id := "t", title := "T", file_path := "f", language := "en",
    target_language := "es", author := none, sentences_per_day := 3,
    sentences := ["Hello."] }

/-- Catalog for the C3 counterexample. -/
def tm3 : TextManager := { data_dir := "d", texts := [("t", oneSentenceText)] }

/-- User state for the C3 counterexample: `u` assigned to `t`, cursor 0. -/
def um3 : UserManager :=
  { users := [("u", uUser)],
    progress := [("u", [{ user_id := "u", text_id := "t", current_position := 0,
                          last_sent_date := none, translations := [],
                          total_sentences := some 1 }])] }

/-- The state the C3 counterexample's raise leaves behind: only the
out-of-range entry was written before `IndexError`. -/
def um3After : UserManager :=
  { users := [("u", uUser)],
    progress := [("u", [{ user_id := "u", text_id := "t", current_position := 0,
                          last_sent_date := none, translations := [(98, "B")],
                          total_sentences := some 1 }])] }

/-- User state for the C3 witness: `u` assigned to the five-sentence
`sampleText`, cursor 2 (one batch of two already sent). -/
def um3W : UserManager :=
  { users := [("u", uUser)],
    progress := [("u", [{ user_id := "u", text_id := "t", current_position := 2,
                          last_sent_date := some 1, translations := [],
                          total_sentences := some 5 }])] }

/-! Helper lemmas about the Python-dict model. -/

theorem pyGet?_insert {κ β : Type} [DecidableEq κ] (k k' : κ) (v : β) (d : List (κ × β)) :
    pyGet? k' (pyInsert k v d) = if k = k' then some v else pyGet? k' d := by
  induction d with
  | nil => simp [pyInsert, pyGet?]
  | cons kv rest ih =>
      obtain ⟨k0, v0⟩ := kv
      by_cases h0 : k0 = k
      · subst h0
        simp only [pyInsert, if_pos rfl, pyGet?]
        by_cases h1 : k0 = k' <;> simp [h1]
      · simp only [pyInsert, if_neg h0, pyGet?, ih]
        split_ifs <;> simp_all

theorem pyGet?_append {κ β : Type} [DecidableEq κ] (k : κ) (l1 l2 : List (κ × β)) :
    pyGet? k (l1 ++ l2) = (pyGet? k l1).or (pyGet? k l2) := by
  induction l1 with
  | nil => simp [pyGet?]
  | cons kv rest ih =>
      simp only [List.cons_append, pyGet?, ih]
      by_cases h : kv.1 = k <;> simp [h, ih]

theorem pyGet?_update {κ β : Type} [DecidableEq κ] (k : κ) (d other : List (κ × β)) :
    pyGet? k (pyUpdate d other) = (pyGet? k other.reverse).or (pyGet? k d) := by
  induction other generalizing d with
  | nil => simp [pyUpdate, pyGet?]
  | cons kv rest ih =>
      obtain ⟨k0, v0⟩ := kv
      show pyGet? k (pyUpdate (pyInsert k0 v0 d) rest) = _
      rw [ih, List.reverse_cons, pyGet?_append, Option.or_assoc]
      congr 1
      rw [pyGet?_insert]
      by_cases h : k0 = k <;> simp [h, pyGet?]

theorem pyGet?_pyMapAt_self {κ β : Type} [DecidableEq κ] (k : κ) (f : β → β)
    (d : List (κ × β)) : pyGet? k (pyMapAt k f d) = (pyGet? k d).map f := by
  induction d with
  | nil => simp [pyMapAt, pyGet?]
  | cons kv rest ih =>
      obtain ⟨k0, v0⟩ := kv
      by_cases h : k0 = k
      · subst h
        simp [pyMapAt, pyGet?]
      · simp [pyMapAt, pyGet?, h, ih]

theorem updFirst_find? (text_id : String) (f : TranslationProgress → TranslationProgress)
    (hf : ∀ p, (f p).text_id = p.text_id) (l : List TranslationProgress) :
    (updFirst text_id f l).find? (fun p => p.text_id = text_id) =
      (l.find? (fun p => p.text_id = text_id)).map f := by
  induction l with
  | nil => simp [updFirst]
  | cons p rest ih =>
      by_cases h : p.text_id = text_id
      · simp [updFirst, h, List.find?_cons, hf]
      · simp [updFirst, h, List.find?_cons, ih]

/-- Inversion of a successful `get_progress`. -/
theorem get_progress_ok_iff (um : UserManager) (user_id text_id : String)
    (prog : TranslationProgress) :
    get_progress um user_id text_id = .ok prog ↔
      (∃ u, pyGet? user_id um.users = some u) ∧
      ∃ pl, pyGet? user_id um.progress = some pl ∧
            pl.find? (fun p => p.text_id = text_id) = some prog := by
  unfold get_progress get_user
  cases hu : pyGet? user_id um.users with
  | none => simp
  | some u =>
      cases hpl : pyGet? user_id um.progress with
      | none => simp
      | some pl =>
          cases hf : pl.find? (fun p => p.text_id = text_id) with
          | none => simp [hf]
          | some q => simp [hf]

/-- Effect of `save_translation` on the record that `get_progress`
resolves: the states agree on users, and the record gains one binding. -/
theorem save_translation_ok (um : UserManager) (user_id text_id : String)
    (k : Int) (v : String) (prog : TranslationProgress)
    (hp : get_progress um user_id text_id = .ok prog) :
    ∃ um', save_translation um user_id text_id k v = .ok um' ∧
      um'.users = um.users ∧
      get_progress um' user_id text_id =
        .ok { prog with translations := pyInsert k v prog.translations } := by
  rw [get_progress_ok_iff] at hp
  obtain ⟨⟨u, hu⟩, pl, hpl, hf⟩ := hp
  have hsave : save_translation um user_id text_id k v =
      .ok { um with
            progress :=
              pyMapAt user_id
                (updFirst text_id
                  (fun p => { p with translations := pyInsert k v p.translations }))
                um.progress } := by
    unfold save_translation
    rw [(get_progress_ok_iff um user_id text_id prog).mpr ⟨⟨u, hu⟩, pl, hpl, hf⟩]
  refine ⟨_, hsave, rfl, ?_⟩
  rw [get_progress_ok_iff]
  refine ⟨⟨u, hu⟩,
    updFirst text_id (fun p => { p with translations := pyInsert k v p.translations }) pl,
    ?_, ?_⟩
  · show pyGet? user_id (pyMapAt user_id _ um.progress) = _
    rw [pyGet?_pyMapAt_self, hpl, Option.map_some']
  · rw [updFirst_find? text_id
      (fun p => { p with translations := pyInsert k v p.translations })
      (fun p => rfl) pl, hf, Option.map_some']

/-- C1 amended: `update_progress` (advance) performs no monotonicity guard —
it sets `currentPosition` to the supplied `newPosition` unconditionally
(and records the sent date), so a call with a smaller value decreases the
position; non-decrease holds only when callers pass non-decreasing
positions. -/
theorem c1_update_progress_sets_position_unconditionally
    (um : UserManager) (user_id text_id : String)
    (position : Int) (sent_date : Nat) (prog : TranslationProgress)
    (hp : get_progress um user_id text_id = .ok prog) :
    ∃ um', update_progress um user_id text_id position sent_date = .ok um' ∧
      um'.users = um.users ∧
      get_progress um' user_id text_id =
        .ok { prog with current_position := position,
                        last_sent_date := some sent_date } := by
  rw [get_progress_ok_iff] at hp
  obtain ⟨⟨u, hu⟩, pl, hpl, hf⟩ := hp
  have hupd : update_progress um user_id text_id position sent_date =
      .ok { um with
            progress :=
              pyMapAt user_id
                (updFirst text_id
                  (fun p => { p with current_position := position,
                                     last_sent_date := some sent_date }))
                um.progress } := by
    unfold update_progress
    rw [(get_progress_ok_iff um user_id text_id prog).mpr ⟨⟨u, hu⟩, pl, hpl, hf⟩]
  refine ⟨_, hupd, rfl, ?_⟩
  rw [get_progress_ok_iff]
  refine ⟨⟨u, hu⟩,
    updFirst text_id
      (fun p => { p with current_position := position, last_sent_date := some sent_date }) pl,
    ?_, ?_⟩
  · show pyGet? user_id (pyMapAt user_id _ um.progress) = _
    rw [pyGet?_pyMapAt_self, hpl, Option.map_some']
  · rw [updFirst_find? text_id
      (fun p => { p with current_position := position, last_sent_date := some sent_date })
      (fun p => rfl) pl, hf, Option.map_some']

/-! Claim C7. -/

/-- C7: for every text with `sentencesPerDay ≥ 1`, `total_days` equals
`ceil(len(sentences) / sentencesPerDay)` and satisfies
`sentencesPerDay * (total_days - 1) < totalSentences ≤ sentencesPerDay * total_days`. -/
theorem c7_total_days_ceil (t : TextSource) (h : 1 ≤ t.sentences_per_day) :
    t.total_days = ⌈((t.sentences.length : ℚ) / (t.sentences_per_day : ℚ))⌉ ∧
    t.sentences_per_day * (t.total_days - 1) < (t.sentences.length : Int) ∧
    (t.sentences.length : Int) ≤ t.sentences_per_day * t.total_days := by
  have hd : (0 : Int) < t.sentences_per_day := h
  have hfd : t.total_days =
      ((t.sentences.length : Int) + t.sentences_per_day - 1) / t.sentences_per_day :=
    Int.fdiv_eq_ediv _ hd.le
  set d := t.sentences_per_day with hdef
  set n := (t.sentences.length : Int) with hndef
  set q := (n + d - 1) / d with hq
  have hA : n + d - 1 < (q + 1) * d := Int.lt_ediv_add_one_mul_self (n + d - 1) hd
  have hB : q * d ≤ n + d - 1 := Int.ediv_mul_le (n + d - 1) hd.ne'
  have hub : n ≤ d * q := by nlinarith
  have hlb : d * (q - 1) < n := by nlinarith
  have hdQ : (0 : ℚ) < (d : ℚ) := by exact_mod_cast hd
  refine ⟨?_, ?_, ?_⟩
  · rw [hfd]
    rw [eq_comm, Int.ceil_eq_iff]
    constructor
    · rw [lt_div_iff₀ hdQ]
      have : (q - 1) * d < n := by nlinarith
      exact_mod_cast this
    · rw [div_le_iff₀ hdQ]
      have : n ≤ q * d := by nlinarith
      exact_mod_cast this
  · rw [hfd]; exact hlb
  · rw [hfd]; exact hub

/-- Witness for C7 at a concrete text. -/
theorem c7_witness :
    (1 : Int) ≤ sampleText.sentences_per_day ∧
    (sampleText.total_days =
        ⌈((sampleText.sentences.length : ℚ) / (sampleText.sentences_per_day : ℚ))⌉ ∧
      sampleText.sentences_per_day * (sampleText.total_days - 1) <
        (sampleText.sentences.length : Int) ∧
      (sampleText.sentences.length : Int) ≤
        sampleText.sentences_per_day * sampleText.total_days) :=
  ⟨by decide, c7_total_days_ceil sampleText (by decide)⟩

/-! Claim C9. -/

/-- C9: the mapping returned by `process_reply` depends only on the body;
the `sender` and `subject` arguments never influence the result. -/
theorem c9_process_reply_ignores_sender_subject
    (s1 j1 s2 j2 body : String) :
    process_reply s1 j1 body = process_reply s2 j2 body := rfl

/-! Claim C2. -/

/-- C2: `process_reply` applies the bracket pattern first and uses the
numbered-list fallback only when the bracket pattern yields zero matches;
marker `n` maps to key `n-1` with the text trimmed; and the three concrete
examples behave as the spec states (an unmatched body yields the empty
mapping, not an error). -/
theorem c2_reply_parse_primary_fallback :
    (∀ sender subject body, bracketMatches body ≠ [] →
        process_reply sender subject body = matchesToDict (bracketMatches body)) ∧
    (∀ sender subject body, bracketMatches body = [] →
        process_reply sender subject body = matchesToDict (numMatches body)) ∧
    process_reply "s" "j" "[1] Hola\n[2] Mundo" = [(0, "Hola"), (1, "Mundo")] ∧
    (process_reply "s" "j" "1. Hola\n2. Mundo" = [(0, "Hola"), (1, "Mundo")] ∧
      bracketMatches "1. Hola\n2. Mundo" = []) ∧
    process_reply "s" "j" "no markers here" = [] := by
  refine ⟨?_, ?_, by decide, ⟨by decide, by decide⟩, by decide⟩
  · intro sender subject body hne
    unfold process_reply
    simp [hne]
  · intro sender subject body he
    unfold process_reply
    simp [he]

/-- Witness for C2: the primary-pattern branch taken on a concrete body. -/
theorem c2_witness :
    bracketMatches "[1] Hi" ≠ [] ∧
    process_reply "a" "b" "[1] Hi" = matchesToDict (bracketMatches "[1] Hi") :=
  ⟨by decide, c2_reply_parse_primary_fallback.1 "a" "b" "[1] Hi" (by decide)⟩

/-! Claim C4. -/

theorem foldl_append_eq_joinPieces (translations : List (Int × String))
    (l : List (Nat × String)) :
    ∀ init : String,
      l.foldl
        (fun acc iv =>
          match pyGet? ((iv.1 : Nat) : Int) translations with
          | some tr =>
              acc ++ tr ++
                (if endsWithChar iv.2 '.' || endsWithChar iv.2 '!' || endsWithChar iv.2 '?' then
                  "\n"
                 else " ")
          | none => acc ++ "[UNTRANSLATED: " ++ iv.2 ++ "]")
        init = init ++ joinPieces translations l := by
  induction l with
  | nil => intro init; simp [joinPieces]
  | cons iv rest ih =>
      intro init
      rw [List.foldl_cons, ih, joinPieces, ← String.append_assoc]
      congr 1
      cases h : pyGet? ((iv.1 : Nat) : Int) translations with
      | none => simp [txtPiece, h, String.append_assoc]
      | some tr => simp [txtPiece, h, String.append_assoc]

/-- C4 counterexample: on a text whose single sentence ends in `.` and has
no translation, the code emits the bare placeholder with no following line
break, while the claim prescribes a line break after every sentence whose
original ends in `.`, `!`, or `?`. -/
theorem c4_no_separator_after_untranslated :
    _assemble_txt ["A."] [] = "[UNTRANSLATED: A.]" ∧
    _assemble_txt_claimed ["A."] [] = "[UNTRANSLATED: A.]\n" ∧
    _assemble_txt ["A."] [] ≠ _assemble_txt_claimed ["A."] [] := by
  refine ⟨by decide, by decide, by decide⟩

/-- C4 amended: the plain-format output is the concatenation, over sentences
in order, of the translation followed by a line break (original ends in
`.`, `!`, `?`) or a space when a translation exists, and of the bare
placeholder `[UNTRANSLATED: <original>]` with NO separator when it does
not; concretely one untranslated sentence yields exactly its placeholder
span with the original unmodified. -/
theorem c4_assemble_txt_characterization :
    (∀ sentences translations,
        _assemble_txt sentences translations = joinPieces translations sentences.enum) ∧
    _assemble_txt ["Hola.", "Mundo."] [(0, "X.")] = "X.\n[UNTRANSLATED: Mundo.]" := by
  refine ⟨?_, by decide⟩
  intro sentences translations
  unfold _assemble_txt
  rw [foldl_append_eq_joinPieces]
  simp

/-- C1 counterexample: with the cursor at 5, calling `update_progress` with
the smaller position 2 is neither rejected nor a no-op — afterwards the
record's `currentPosition` is 2 < 5. -/
theorem c1_update_progress_decreases_position :
    get_progress c1State "u" "t" =
      .ok { user_id := "u", text_id := "t", current_position := 5,
            last_sent_date := none, translations := [], total_sentences := some 9 } ∧
    update_progress c1State "u" "t" 2 7 = .ok c1After ∧
    get_progress c1After "u" "t" =
      .ok { user_id := "u", text_id := "t", current_position := 2,
            last_sent_date := some 7, translations := [], total_sentences := some 9 } ∧
    (2 : Int) < 5 := by
  refine ⟨rfl, rfl, rfl, by decide⟩

/-- Witness for the C1 amended theorem at a concrete state. -/
theorem c1_witness :
    get_progress c1State "u" "t" =
      .ok { user_id := "u", text_id := "t", current_position := 5,
            last_sent_date := none, translations := [], total_sentences := some 9 } ∧
    (∃ um', update_progress c1State "u" "t" 9 8 = .ok um' ∧
      um'.users = c1State.users ∧
      get_progress um' "u" "t" =
        .ok { user_id := "u", text_id := "t", current_position := 9,
              last_sent_date := some 8, translations := [], total_sentences := some 9 }) :=
  ⟨rfl,
    c1_update_progress_sets_position_unconditionally c1State "u" "t" 9 8
      { user_id := "u", text_id := "t", current_position := 5,
        last_sent_date := none, translations := [], total_sentences := some 9 }
      rfl⟩

/-! Claim C8. -/

/-- C8: `assign_text` fails when the user is unregistered, fails when a
record for the same (user, text) pair already exists, and otherwise appends
exactly one new record with position 0 and empty translations. -/
theorem c8_assign_text_spec :
    (∀ um user_id text_id total, pyGet? user_id um.users = none →
        assign_text um (user_id) (text_id) total = .error "KeyError: user not found") ∧
    (∀ um user_id text_id total u pl, pyGet? user_id um.users = some u →
        pyGet? user_id um.progress = some pl →
        pl.any (fun p => p.text_id = text_id) = true →
        assign_text um user_id text_id total =
          .error "ValueError: user is already translating this text") ∧
    (∀ um user_id text_id total u pl, pyGet? user_id um.users = some u →
        pyGet? user_id um.progress = some pl →
        pl.any (fun p => p.text_id = text_id) = false →
        assign_text um user_id text_id total =
          .ok ({ um with
                   progress := pyInsert user_id
                     (pl ++ [{ user_id := user_id, text_id := text_id,
                               current_position := 0, last_sent_date := none,
                               translations := [],
                               total_sentences := some total }]) um.progress },
               { user_id := user_id, text_id := text_id, current_position := 0,
                 last_sent_date := none, translations := [],
                 total_sentences := some total })) := by
  refine ⟨?_, ?_, ?_⟩
  · intro um user_id text_id total h
    unfold assign_text get_user
    rw [h]
  · intro um user_id text_id total u pl hu hpl hany
    unfold assign_text get_user
    rw [hu, hpl]
    simp [hany]
  · intro um user_id text_id total u pl hu hpl hany
    unfold assign_text get_user
    rw [hu, hpl]
    simp [hany]

/-- Witness for C8: a successful assignment to a registered user. -/
theorem c8_witness :
    pyGet? "u" umW8.users = some uUser ∧
    pyGet? "u" umW8.progress = some [] ∧
    List.any ([] : List TranslationProgress) (fun p => p.text_id = "t") = false ∧
    assign_text umW8 "u" "t" 5 =
      .ok ({ umW8 with
               progress := pyInsert "u"
                 ([] ++ [{ user_id := "u", text_id := "t", current_position := 0,
                           last_sent_date := none, translations := [],
                           total_sentences := some 5 }]) umW8.progress },
           { user_id := "u", text_id := "t", current_position := 0,
             last_sent_date := none, translations := [],
             total_sentences := some 5 }) :=
  ⟨by decide, by decide, by decide,
    c8_assign_text_spec.2.2 umW8 "u" "t" 5 uUser [] (by decide) (by decide) (by decide)⟩

/-! Claim C10. -/

/-- C10: `register_text` is atomic — on either failure (duplicate id, or
missing file) it raises before any mutation, so the catalog is exactly the
input catalog and every previously registered text is retrievable
unmodified. -/
theorem c10_register_text_atomic (fs : String → Option String)
    (tok : String → List String) (tm : TextManager)
    (id title file_path language target_language : String)
    (author : Option String) (sentences_per_day : Int) (e : String) (tm' : TextManager)
    (h : register_text fs tok tm id title file_path language target_language author
          sentences_per_day = .error (e, tm')) :
    tm' = tm ∧ ∀ text_id, get_text tm' text_id = get_text tm text_id := by
  have htm : tm' = tm := by
    unfold register_text at h
    by_cases hc : pyContains id tm.texts
    · rw [if_pos hc] at h
      exact congrArg Prod.snd (Except.error.inj h).symm
    · rw [if_neg hc] at h
      cases hfs : fs (pyPathJoin tm.data_dir file_path) with
      | none =>
          rw [hfs] at h
          exact congrArg Prod.snd (Except.error.inj h).symm
      | some contents =>
          rw [hfs] at h
          exact absurd h (by simp)
  exact ⟨htm, fun text_id => by rw [htm]⟩

/-- Witness for C10: registering with a missing file fails and carries the
unchanged catalog. -/
theorem c10_witness :
    register_text (fun _ => none) (fun _ => []) tm3 "t2" "X" "f2" "en" "es" none 3 =
      .error ("FileNotFoundError: text file not found", tm3) ∧
    (tm3 = tm3 ∧ ∀ text_id, get_text tm3 text_id = get_text tm3 text_id) :=
  ⟨rfl,
    c10_register_text_atomic (fun _ => none) (fun _ => []) tm3 "t2" "X" "f2" "en" "es"
      none 3 "FileNotFoundError: text file not found" tm3 rfl⟩

/-! Claim C6. -/

/-- C6 counterexample: registration never validates `sentences_per_day`, and
for a negative value the code's Python slice `sentences[pos : pos + spd]`
interprets the negative end relative to the end of the list, returning a
non-empty portion where the claimed half-open interval
`[startPosition, min(startPosition + sentencesPerDay, len))` is empty. -/
theorem c6_negative_spd_portion_differs :
    register_text (fun _ => some "raw") (fun _ => ["a", "b", "c"])
        { data_dir := "d", texts := [] } "t" "T" "f.txt" "en" "es" none (-1) =
      .ok (negSpdTm, negSpdText) ∧
    get_daily_portion negSpdTm "t" 0 = .ok ["a", "b"] ∧
    dailyPortionSpec negSpdText 0 = [] ∧
    get_daily_portion negSpdTm "t" 0 ≠ .ok (dailyPortionSpec negSpdText 0) := by
  refine ⟨rfl, rfl, rfl, ?_⟩
  intro h
  have h2 : (["a", "b"] : List String) = dailyPortionSpec negSpdText 0 :=
    Except.ok.inj ((rfl :
      get_daily_portion negSpdTm "t" 0 = .ok ["a", "b"]).symm.trans h)

  exact absurd h2 (by decide)

/-- C6 amended: for a registered text with `sentencesPerDay ≥ 0` and
`startPosition ≥ 0`, the daily portion is exactly the sentence slice
`[startPosition, min(startPosition + sentencesPerDay, len(sentences)))`,
and is empty (not an error) whenever `startPosition ≥ len(sentences)`. -/
theorem c6_daily_portion_slice (tm : TextManager) (text_id : String) (pos : Int)
    (ts : TextSource) (ht : get_text tm text_id = .ok ts) (hpos : 0 ≤ pos)
    (hspd : 0 ≤ ts.sentences_per_day) :
    get_daily_portion tm text_id pos = .ok (dailyPortionSpec ts pos) ∧
    (dailyPortionSpec ts pos).length =
      (min (pos + ts.sentences_per_day) (ts.sentences.length : Int) - pos).toNat ∧
    (∀ i : Nat, i < (dailyPortionSpec ts pos).length →
        (dailyPortionSpec ts pos)[i]? = ts.sentences[pos.toNat + i]?) ∧
    ((ts.sentences.length : Int) ≤ pos → dailyPortionSpec ts pos = []) := by
  set n := ts.sentences.length with hn
  set e := min (pos + ts.sentences_per_day) (n : Int) with he
  have he0 : 0 ≤ e := le_min (by omega) (by positivity)
  have hen : e ≤ (n : Int) := min_le_right _ _
  have hb : pySliceIdx n e = e.toNat := by
    unfold pySliceIdx
    rw [if_neg (by omega), min_eq_left hen]
  have ha : pySliceIdx n pos = (min pos (n : Int)).toNat := by
    unfold pySliceIdx
    rw [if_neg (by omega)]
  have hslice : pySlice ts.sentences pos e = dailyPortionSpec ts pos := by
    unfold pySlice dailyPortionSpec
    rw [hb, ha, ← hn, ← he, List.drop_take]
    by_cases hc : pos ≤ (n : Int)
    · have h1 : (min pos (n : Int)).toNat = pos.toNat := by
        rw [min_eq_left hc]
      rw [h1]
      congr 1
      omega
    · have h1 : (min pos (n : Int)).toNat = n := by
        rw [min_eq_right (by omega)]
        omega
      have h2 : e.toNat - (min pos (n : Int)).toNat = 0 := by omega
      have h3 : (e - pos).toNat = 0 := by omega
      rw [h2, h3]
      simp
  have hlen : (dailyPortionSpec ts pos).length = (e - pos).toNat := by
    unfold dailyPortionSpec
    rw [List.length_take, List.length_drop, ← hn, ← he]
    omega
  refine ⟨?_, ?_, ?_, ?_⟩
  · unfold get_daily_portion
    rw [ht]
    exact congrArg Except.ok hslice
  · rw [hlen]
  · intro i hi
    rw [hlen] at hi
    unfold dailyPortionSpec
    rw [← hn, ← he, List.getElem?_take, if_pos hi, List.getElem?_drop]
  · intro hge
    unfold dailyPortionSpec
    rw [← hn, ← he]
    rw [List.drop_eq_nil_iff.mpr (by omega)]
    simp

/-- Witness for the C6 amended theorem on a concrete catalog. -/
theorem c6_witness :
    get_text sampleTm "t" = .ok sampleText ∧ (0 : Int) ≤ 2 ∧
    (0 : Int) ≤ sampleText.sentences_per_day ∧
    (get_daily_portion sampleTm "t" 2 = .ok (dailyPortionSpec sampleText 2) ∧
      (dailyPortionSpec sampleText 2).length =
        (min ((2 : Int) + sampleText.sentences_per_day)
          (sampleText.sentences.length : Int) - 2).toNat ∧
      (∀ i : Nat, i < (dailyPortionSpec sampleText 2).length →
          (dailyPortionSpec sampleText 2)[i]? =
            sampleText.sentences[(2 : Int).toNat + i]?) ∧
      ((sampleText.sentences.length : Int) ≤ 2 → dailyPortionSpec sampleText 2 = [])) :=
  ⟨rfl, by decide, by decide,
    c6_daily_portion_slice sampleTm "t" 2 sampleText rfl (by decide) (by decide)⟩

/-! Claim C5. -/

theorem foldl_guard_filter {α β : Type} (q : α → Prop) [DecidablePred q] (f : β → α → β) :
    ∀ (l : List α) (acc : β),
      l.foldl (fun a p => if q p then f a p else a) acc =
        (l.filter (fun p => decide (q p))).foldl f acc := by
  intro l
  induction l with
  | nil => intro acc; rfl
  | cons x rest ih =>
      intro acc
      by_cases h : q x <;> simp [List.filter_cons, h, ih]

/-- `get_all_translations` folds `dict.update` over the matching records in
iteration order. -/
theorem get_all_translations_eq (um : UserManager) (text_id : String) :
    get_all_translations um text_id =
      (recordsFor um text_id).foldl (fun acc p => pyUpdate acc p.translations) [] := by
  unfold get_all_translations recordsFor
  rw [List.foldl_flatten, List.foldl_map]
  simp only [foldl_guard_filter]

theorem pyGet?_foldl_pyUpdate (k : Int) :
    ∀ (rs : List TranslationProgress) (acc : List (Int × String)),
      pyGet? k (rs.foldl (fun acc p => pyUpdate acc p.translations) acc) =
        (rs.reverse.findSome? (fun p => pyGet? k p.translations.reverse)).or
          (pyGet? k acc) := by
  intro rs
  induction rs with
  | nil => intro acc; simp
  | cons p rest ih =>
      intro acc
      rw [List.foldl_cons, ih, List.reverse_cons, List.findSome?_append, pyGet?_update,
        Option.or_assoc]
      congr 1
      cases h : pyGet? k p.translations.reverse <;> simp [List.findSome?_cons, h]

/-- C5: the merged map unions every user's record for the text, iterating
users in registration (insertion) order; a key resolves to the value held
by the LAST matching record in that order (later-iterated user wins).
Concretely, when two users registered in order both translate index 0, the
merged map holds exactly the last-registered user's value. -/
theorem c5_merge_last_registered_wins :
    (∀ um text_id k,
        pyGet? k (get_all_translations um text_id) =
          (recordsFor um text_id).reverse.findSome?
            (fun p => pyGet? k p.translations.reverse)) ∧
    c5merged = some [(0, "from-bob")] := by
  refine ⟨?_, rfl⟩
  intro um text_id k
  rw [get_all_translations_eq, pyGet?_foldl_pyUpdate]
  simp [pyGet?]

/-! Claim C3. -/

theorem pyGet?_isSome_iff_mem {κ β : Type} [DecidableEq κ] (k : κ) (d : List (κ × β)) :
    (pyGet? k d).isSome ↔ k ∈ d.map Prod.fst := by
  induction d with
  | nil => simp [pyGet?]
  | cons kv rest ih =>
      obtain ⟨k0, v0⟩ := kv
      simp only [pyGet?, List.map_cons, List.mem_cons]
      by_cases h : k0 = k
      · subst h; simp
      · rw [if_neg h, ih]
        constructor
        · exact fun hm => Or.inr hm
        · rintro (heq | hm)
          · exact absurd heq.symm h
          · exact hm

theorem pyInsert_keys {κ β : Type} [DecidableEq κ] (k : κ) (v : β) (d : List (κ × β)) :
    (pyInsert k v d).map Prod.fst =
      if (pyGet? k d).isSome then d.map Prod.fst else d.map Prod.fst ++ [k] := by
  induction d with
  | nil => simp [pyInsert, pyGet?]
  | cons kv rest ih =>
      obtain ⟨k0, v0⟩ := kv
      by_cases h : k0 = k
      · subst h
        simp [pyInsert, pyGet?]
      · simp [pyInsert, pyGet?, h, ih]
        split_ifs <;> simp

theorem pyInsert_nodupKeys {κ β : Type} [DecidableEq κ] (k : κ) (v : β)
    (d : List (κ × β)) (h : (d.map Prod.fst).Nodup) :
    ((pyInsert k v d).map Prod.fst).Nodup := by
  rw [pyInsert_keys]
  split_ifs with hc
  · exact h
  · rw [List.nodup_append]
    refine ⟨h, List.nodup_singleton k, ?_⟩
    intro a ha hb
    rw [List.mem_singleton] at hb
    subst hb
    exact hc ((pyGet?_isSome_iff_mem a d).mpr ha)

theorem foldl_matches_nodupKeys :
    ∀ (ms : List (List Char × List Char)) (d : List (Int × String)),
      (d.map Prod.fst).Nodup →
      ((ms.foldl
          (fun d kv =>
            match pyIntOfDigits? kv.1 with
            | some n => pyInsert (n - 1) (String.mk (pyStrip kv.2)) d
            | none => d)
          d).map Prod.fst).Nodup := by
  intro ms
  induction ms with
  | nil => intro d h; exact h
  | cons kv rest ih =>
      intro d h
      rw [List.foldl_cons]
      cases hi : pyIntOfDigits? kv.1 with
      | none => simp only [hi]; exact ih d h
      | some n => simp only [hi]; exact ih _ (pyInsert_nodupKeys _ _ _ h)

/-- The dict built by `process_reply` always has pairwise distinct keys. -/
theorem process_reply_nodupKeys (sender subject body : String) :
    ((process_reply sender subject body).map Prod.fst).Nodup :=
  foldl_matches_nodupKeys _ [] (by simp)

theorem pyGet?_foldl_offset_not_mem (base k : Int) :
    ∀ (entries : List (Int × String)) (d : List (Int × String)),
      (∀ rt ∈ entries, base + rt.1 ≠ k) →
      pyGet? k (entries.foldl (fun d rt => pyInsert (base + rt.1) rt.2 d) d) =
        pyGet? k d := by
  intro entries
  induction entries with
  | nil => intro d _; rfl
  | cons rt rest ih =>
      intro d hne
      rw [List.foldl_cons, ih _ (fun rt' h' => hne rt' (List.mem_cons_of_mem _ h')),
        pyGet?_insert, if_neg (hne rt (List.mem_cons_self _ _))]

theorem pyGet?_foldl_offset_mem (base : Int) :
    ∀ (entries : List (Int × String)) (d : List (Int × String)) (rt : Int × String),
      (entries.map Prod.fst).Nodup → rt ∈ entries →
      pyGet? (base + rt.1)
          (entries.foldl (fun d rt => pyInsert (base + rt.1) rt.2 d) d) =
        some rt.2 := by
  intro entries
  induction entries with
  | nil => intro d rt _ hmem; exact absurd hmem (List.not_mem_nil rt)
  | cons hd rest ih =>
      intro d rt hnd hmem
      rw [List.map_cons, List.nodup_cons] at hnd
      rw [List.foldl_cons]
      rcases List.mem_cons.mp hmem with heq | hmem'
      · subst heq
        rw [pyGet?_foldl_offset_not_mem]
        · rw [pyGet?_insert, if_pos rfl]
        · intro rt' hrt' heq'
          have h1 : rt'.1 = rt.1 := by omega
          exact hnd.1 (h1 ▸ List.mem_map_of_mem Prod.fst hrt')
      · exact ih _ rt hnd.2 hmem'

/-- Success of the save loop: with the text resolvable and every offset
index valid for the Python list, the loop succeeds and the resolved record
accumulates exactly the offset insertions, in dict order. -/
theorem routeSaveLoop_ok (tm : TextManager) (user_id text_id : String) (base : Int)
    (text : TextSource) (ht : get_text tm text_id = .ok text) :
    ∀ (entries : List (Int × String)) (um : UserManager) (prog : TranslationProgress),
      get_progress um user_id text_id = .ok prog →
      (∀ rt ∈ entries, pyIndexValid text.sentences.length (base + rt.1) = true) →
      ∃ um', routeSaveLoop tm user_id text_id base um entries = .ok um' ∧
        um'.users = um.users ∧
        get_progress um' user_id text_id =
          .ok { prog with
                translations :=
                  entries.foldl (fun d rt => pyInsert (base + rt.1) rt.2 d)
                    prog.translations } := by
  intro entries
  induction entries with
  | nil =>
      intro um prog hp _
      exact ⟨um, rfl, rfl, hp⟩
  | cons rt rest ih =>
      intro um prog hp hv
      obtain ⟨um1, hs, hu1, hp1⟩ :=
        save_translation_ok um user_id text_id (base + rt.1) rt.2 prog hp
      have hsts : save_translated_sentence tm text_id (base + rt.1) = .ok () := by
        simp [save_translated_sentence, ht, hv rt (List.mem_cons_self _ _)]
      obtain ⟨um', hloop, huu, hpp⟩ :=
        ih um1 _ hp1 (fun rt' h' => hv rt' (List.mem_cons_of_mem _ h'))
      refine ⟨um', ?_, by rw [huu, hu1], hpp⟩
      simp only [routeSaveLoop, hs, hsts]
      exact hloop

/-- C3 counterexample: the reply parses to the non-empty mapping
`{98 ↦ "B", 0 ↦ "A"}` with base offset 0, but routing aborts with
`IndexError` while echoing the out-of-range index 98 (the one-sentence text
has no index 98), so the parsed entry `0 ↦ "A"` is never stored — no state
contains it, and no successful state exists at all. -/
theorem c3_out_of_range_marker_aborts_save :
    process_reply "u.mail" "Daily Translation: T" "[99] B\n[1] A" =
      [(98, "B"), (0, "A")] ∧
    process_translation_reply tm3 um3 "u.mail" "Daily Translation: T" "[99] B\n[1] A" =
      .error ("IndexError: sentence index out of range", um3After) ∧
    lookupTranslation um3After "u" "t" 0 = none ∧
    ∀ um', process_translation_reply tm3 um3 "u.mail" "Daily Translation: T"
        "[99] B\n[1] A" ≠ .ok um' := by
  refine ⟨by decide, rfl, by decide, ?_⟩
  intro um' h
  have h2 : (Except.error ("IndexError: sentence index out of range", um3After) :
      Except (String × UserManager) UserManager) = .ok um' :=
    (rfl : process_translation_reply tm3 um3 "u.mail" "Daily Translation: T"
        "[99] B\n[1] A" = .error ("IndexError: sentence index out of range", um3After)
      ).symm.trans h
  exact Except.noConfusion h2

/-- C3 amended: when the sender and subject resolve, the reply parses to a
non-empty mapping, and every offset index `base + r`
(`base = max(0, currentPosition - sentencesPerDay)`) is a valid Python
index into the text's sentences (as the routing loop's echo step requires),
routing succeeds and stores each parsed relative index `r` at translation
key `base + r` in that user's progress record for the resolved text.  (A
reply containing an out-of-range marker instead aborts the loop with
`IndexError` partway, keeping only the entries written before the raise.) -/
theorem c3_reply_routing_stores_offset_translations
    (tm : TextManager) (um : UserManager) (sender subject body : String)
    (user_id text_id : String) (prog : TranslationProgress) (text : TextSource)
    (hsend : resolve_sender um sender = some user_id)
    (hsub : resolve_text_from_subject tm subject = some text_id)
    (hne : process_reply sender subject body ≠ [])
    (hp : get_progress um user_id text_id = .ok prog)
    (ht : get_text tm text_id = .ok text)
    (hv : ∀ rt ∈ process_reply sender subject body,
        pyIndexValid text.sentences.length
          (max 0 (prog.current_position - text.sentences_per_day) + rt.1) = true) :
    ∃ um', process_translation_reply tm um sender subject body = .ok um' ∧
      ∀ rt ∈ process_reply sender subject body,
        lookupTranslation um' user_id text_id
          (max 0 (prog.current_position - text.sentences_per_day) + rt.1) =
          some rt.2 := by
  obtain ⟨um', hloop, huu, hpp⟩ :=
    routeSaveLoop_ok tm user_id text_id
      (max 0 (prog.current_position - text.sentences_per_day)) text ht
      (process_reply sender subject body) um prog hp hv
  refine ⟨um', ?_, ?_⟩
  · simp only [process_translation_reply, hsend, hsub, hp, ht, if_neg hne]
    exact hloop
  · intro rt hmem
    unfold lookupTranslation
    rw [hpp]
    exact pyGet?_foldl_offset_mem _ _ _ rt (process_reply_nodupKeys sender subject body)
      hmem

/-- Witness for the C3 amended theorem: a reply with in-range markers. -/
theorem c3_witness :
    resolve_sender um3W "u.mail" = some "u" ∧
    resolve_text_from_subject sampleTm "Daily Translation: T" = some "t" ∧
    process_reply "u.mail" "Daily Translation: T" "[1] A\n[2] B" ≠ [] ∧
    get_progress um3W "u" "t" =
      .ok { user_id := "u", text_id := "t", current_position := 2,
            last_sent_date := some 1, translations := [],
            total_sentences := some 5 } ∧
    get_text sampleTm "t" = .ok sampleText ∧
    (∀ rt ∈ process_reply "u.mail" "Daily Translation: T" "[1] A\n[2] B",
        pyIndexValid sampleText.sentences.length (max 0 ((2 : Int) - 2) + rt.1) = true) ∧
    (∃ um', process_translation_reply sampleTm um3W "u.mail" "Daily Translation: T"
          "[1] A\n[2] B" = .ok um' ∧
      ∀ rt ∈ process_reply "u.mail" "Daily Translation: T" "[1] A\n[2] B",
        lookupTranslation um' "u" "t" (max 0 ((2 : Int) - 2) + rt.1) = some rt.2) :=
  ⟨rfl, rfl, by decide, rfl, rfl, by decide,
    c3_reply_routing_stores_offset_translations sampleTm um3W "u.mail"
      "Daily Translation: T" "[1] A\n[2] B" "u" "t"
      { user_id := "u", text_id := "t", current_position := 2,
        last_sent_date := some 1, translations := [], total_sentences := some 5 }
      sampleText rfl rfl (by decide) rfl rfl (by decide)⟩

end DT
